import Mathlib

/-!
Shallow embedding of `thread_pool.py` (class `ThreadPool`, a bounded worker
pool for Google App Engine) together with proofs about the embedded code.

Modelling conventions:
* Python values that can appear inside a job triple are modelled by `PyObj`.
* Python's `Queue.Queue` (the Bounded Job Queue) is modelled by `BQueue`:
  a `maxsize`, the list of queued `items`, and the `unfinished` task counter
  that `put` increments, `task_done` decrements, and `join` waits on.
  Blocking-with-timeout `put`/`get` are modelled atomically: an operation
  succeeds iff the queue has room / an item at the moment the timeout would
  have elapsed, and fails with the corresponding exception otherwise
  (concurrent interleavings are captured by sequences of atomic operations
  and by oracle scripts chosen by the environment).
* Exceptions are modelled by `Except PyError` results; a mutation that
  happens before an exception is raised is kept in the returned state.
* Queues are shared mutable objects in Python (`forward` aliases one queue
  between two pools), so pools refer to queues by an id into a system heap
  `Sys`; `Sys.alloc` models `Queue(capacity)` object creation.
-/

/-- Python exceptions that the embedded code can raise: `Queue.Full`,
`Queue.Empty`, `ValueError`, `TypeError`, `AttributeError`, and an unhandled
exception escaping a job callable. -/
inductive PyError where
  | full
  | empty
  | valueError
  | typeError
  | attributeError
  | jobError
deriving DecidableEq, Repr

/-- Python values as far as the embedded code inspects them: callables,
integers, tuples and dicts (the shapes appearing in job triples). -/
inductive PyObj where
  | callable (id : Nat)
  | intVal (n : Int)
  | tup (xs : List PyObj)
  | dict (kvs : List (String × PyObj))

/-- Whether a Python value is callable. -/
def PyObj.isCallable : PyObj → Bool
  | .callable _ => true
  | _ => false

/-- A job as stored on the in-queue by `add`: the `(callback, args, kwargs)`
triple built at `self._queue.put((callback, args, kwargs), ...)`. -/
abbrev Job := PyObj × List PyObj × List (String × PyObj)

/-- Model of Python's `Queue.Queue(maxsize)`: the fixed `maxsize`, the queued
`items` in FIFO order, and the `unfinished_tasks` counter. -/
structure BQueue (α : Type) where
  maxsize : Nat
  items : List α
  unfinished : Nat

/-- Model of `Queue(capacity)`: empty queue with the given bound. -/
def mkBQueue (α : Type) (capacity : Nat) : BQueue α :=
  { maxsize := capacity, items := [], unfinished := 0 }

/-- Queue fullness test used by `put`: Python's `Queue.put` blocks while
`0 < maxsize` and `qsize() >= maxsize` (a non-positive `maxsize` means an
unbounded queue). -/
def BQueue.isFull {α : Type} (q : BQueue α) : Bool :=
  if 0 < q.maxsize ∧ q.maxsize ≤ q.items.length then true else false

/-- Model of `Queue.put(item, timeout)`: if the queue is still full when the
timeout elapses it raises `Queue.Full`; otherwise the item is appended and
`unfinished_tasks` is incremented. The queue never exceeds `maxsize`. -/
def BQueue.put {α : Type} (q : BQueue α) (x : α) : Except PyError (BQueue α) :=
  if q.isFull then .error .full
  else .ok { q with items := q.items ++ [x], unfinished := q.unfinished + 1 }

/-- Model of `Queue.get(timeout)`: raises `Queue.Empty` when no item arrives
before the timeout, otherwise removes and returns the head item
(`unfinished_tasks` is untouched by `get`). -/
def BQueue.get {α : Type} (q : BQueue α) : Except PyError (α × BQueue α) :=
  match q.items with
  | [] => .error .empty
  | x :: rest => .ok (x, { q with items := rest })

/-- Model of `Queue.task_done()`: decrements `unfinished_tasks`, raising
`ValueError` when called more times than there were items placed. -/
def BQueue.task_done {α : Type} (q : BQueue α) : Except PyError (BQueue α) :=
  match q.unfinished with
  | 0 => .error .valueError
  | n + 1 => .ok { q with unfinished := n }

/-- One atomic queue operation performed by some thread: a `put` of an item
(`add` delegates to this), a worker `get`, or a `task_done`. -/
inductive QOp (α : Type) where
  | putOp (x : α)
  | getOp
  | doneOp

/-- Effect of one atomic operation on the queue state; a failing operation
(`Full`, `Empty`, `ValueError`) leaves the queue unchanged. -/
def BQueue.applyOp {α : Type} (q : BQueue α) : QOp α → BQueue α
  | .putOp x =>
    match q.put x with
    | .ok q2 => q2
    | .error _ => q
  | .getOp =>
    match q.get with
    | .ok r => r.2
    | .error _ => q
  | .doneOp =>
    match q.task_done with
    | .ok q2 => q2
    | .error _ => q

/-- Runs a sequence of atomic queue operations (an arbitrary interleaving of
the threads touching the queue). -/
def runOps {α : Type} (q : BQueue α) : List (QOp α) → BQueue α
  | [] => q
  | op :: ops => runOps (q.applyOp op) ops

theorem BQueue.applyOp_maxsize {α : Type} (q : BQueue α) (op : QOp α) :
    (q.applyOp op).maxsize = q.maxsize := by
  obtain ⟨ms, its, unf⟩ := q
  cases op with
  | putOp x =>
    cases hfull : BQueue.isFull (⟨ms, its, unf⟩ : BQueue α) with
    | true => simp [BQueue.applyOp, BQueue.put, hfull]
    | false => simp [BQueue.applyOp, BQueue.put, hfull]
  | getOp =>
    cases its with
    | nil => rfl
    | cons x rest => rfl
  | doneOp =>
    cases unf with
    | zero => rfl
    | succ n => rfl

theorem BQueue.applyOp_length_le {α : Type} (q : BQueue α) (op : QOp α)
    (hpos : 0 < q.maxsize) (hlen : q.items.length ≤ q.maxsize) :
    (q.applyOp op).items.length ≤ q.maxsize := by
  obtain ⟨ms, its, unf⟩ := q
  simp only at hpos hlen
  cases op with
  | putOp x =>
    cases hfull : BQueue.isFull (⟨ms, its, unf⟩ : BQueue α) with
    | false =>
      have hlt : its.length < ms := by
        by_contra hge
        have hf : BQueue.isFull (⟨ms, its, unf⟩ : BQueue α) = true := by
          simp [BQueue.isFull]
          exact ⟨hpos, Nat.le_of_not_lt hge⟩
        rw [hf] at hfull
        exact Bool.noConfusion hfull
      simp [BQueue.applyOp, BQueue.put, hfull]
      omega
    | true => simp [BQueue.applyOp, BQueue.put, hfull, hlen]
  | getOp =>
    cases its with
    | nil => simp [BQueue.applyOp, BQueue.get]
    | cons x rest =>
      simp only [List.length_cons] at hlen
      simp [BQueue.applyOp, BQueue.get]
      omega
  | doneOp =>
    cases unf with
    | zero => simpa [BQueue.applyOp, BQueue.task_done] using hlen
    | succ n => simpa [BQueue.applyOp, BQueue.task_done] using hlen

theorem runOps_length_le {α : Type} (ops : List (QOp α)) (q : BQueue α)
    (hpos : 0 < q.maxsize) (hlen : q.items.length ≤ q.maxsize) :
    (runOps q ops).items.length ≤ q.maxsize := by
  induction ops generalizing q with
  | nil => exact hlen
  | cons op ops ih =>
    have hm := BQueue.applyOp_maxsize q op
    have h1 := BQueue.applyOp_length_le q op hpos hlen
    have := ih (q.applyOp op) (hm ▸ hpos) (hm ▸ h1)
    simpa [runOps, hm] using this

/-- The kind of a thread appended to `self._pool`: the worker threads created
by `_build_pool` (target `_thread_run`) and the consumer thread created by
`run` when a source is configured (target `_consume`). -/
inductive ThreadKind where
  | worker
  | consumer
deriving DecidableEq, Repr

/-- Number of consumer threads in a pool's thread list. -/
def countConsumers (threads : List ThreadKind) : Nat :=
  (threads.filter (fun t =>
    match t with
    | ThreadKind.consumer => true
    | ThreadKind.worker => false)).length

/-- Heap of `Queue` objects: pools refer to queues by id, so that the queue
sharing created by `forward` (one queue aliased as pool A's `_queue_out` and
pool B's `_queue`) is represented faithfully. `nextQ` is the next unused id;
unallocated ids map to a dummy empty queue. -/
structure Sys where
  queues : Nat → BQueue Job
  nextQ : Nat

/-- Initial heap with no allocated queues. -/
def mkSys : Sys :=
  { queues := fun _ => mkBQueue Job 0, nextQ := 0 }

/-- Model of `Queue(capacity)` object creation: allocates a fresh queue in
the heap and returns its id. -/
def Sys.alloc (s : Sys) (capacity : Nat) : Sys × Nat :=
  ({ queues := fun j => if j = s.nextQ then mkBQueue Job capacity else s.queues j,
     nextQ := s.nextQ + 1 }, s.nextQ)

/-- Replaces the queue stored at id `i`. -/
def Sys.setQueue (s : Sys) (i : Nat) (q : BQueue Job) : Sys :=
  { s with queues := fun j => if j = i then q else s.queues j }

/-- State of a `ThreadPool` instance: `_pool_size`, `_pool` (the created
threads), `_queue` (id of the jobs in-queue), `_queue_capacity`,
`_queue_timeout` (kept in milliseconds; its value never influences the
model, where timeout expiry is decided by the environment), `_source`,
`_queue_out` (id of the forwarding queue, when set), and the `_start_time` /
`_end_time` attributes, which do not exist (`none`) until `start` / `finish`
assign them. -/
structure ThreadPool where
  pool_size : Nat
  pool : List ThreadKind
  queue : Nat
  queue_capacity : Nat
  queue_timeout : Nat
  source : Option (List (List PyObj))
  queue_out : Option Nat
  start_time : Option Nat
  end_time : Option Nat

/-- The `source` argument accepted by `set_source`: a `Queue` instance, an
iterator (modelled as the list of items it yields), or `None`. The remaining
Python shape, a `ThreadPool` instance, makes `set_source` delegate to
`source.forward(self)`, which is modelled separately by
`ThreadPool.forward`. -/
inductive SourceArg where
  | queueArg (qid : Nat)
  | seqArg (items : List (List PyObj))
  | noneArg

/-- Model of `ThreadPool.set_source` for the non-`ThreadPool` shapes: an
`isinstance(source, Queue)` argument REPLACES `self._queue` (the pool then
reads jobs directly from that queue and `self._source` is not touched);
any other argument is stored in `self._source`. -/
def ThreadPool.set_source (p : ThreadPool) (src : SourceArg) : ThreadPool :=
  match src with
  | .queueArg qid => { p with queue := qid }
  | .seqArg items => { p with source := some items }
  | .noneArg => { p with source := none }

/-- Model of `ThreadPool.__init__(pool_size, source, queue_capacity,
queue_timeout)`: allocates `Queue(queue_capacity)` as the in-queue, stores
the configuration, leaves `_source`, `_queue_out`, `_start_time`, `_end_time`
unset, then calls `set_source(source)`. -/
def mkThreadPool (s : Sys) (pool_size : Nat) (src : SourceArg)
    (queue_capacity queue_timeout : Nat) : Sys × ThreadPool :=
  let r := s.alloc queue_capacity
  (r.1,
   ThreadPool.set_source
     { pool_size := pool_size, pool := [], queue := r.2,
       queue_capacity := queue_capacity, queue_timeout := queue_timeout,
       source := none, queue_out := none,
       start_time := none, end_time := none } src)

/-- Model of `ThreadPool.add(callback, *args, **kwargs)`: puts the
`(callback, args, kwargs)` triple on the in-queue with the pool's
`queue_timeout`; a `Queue.Full` failure propagates to the caller
unhandled. -/
def ThreadPool.add (s : Sys) (p : ThreadPool) (callback : PyObj)
    (args : List PyObj) (kwargs : List (String × PyObj)) : Except PyError Sys :=
  match (s.queues p.queue).put (callback, args, kwargs) with
  | .ok q2 => .ok (s.setQueue p.queue q2)
  | .error e => .error e

/-- Model of `ThreadPool.start`: records `self._start_time = datetime.now()`
(the only place `_start_time` is ever assigned). -/
def ThreadPool.start (p : ThreadPool) (now : Nat) : ThreadPool :=
  { p with start_time := some now }

/-- Model of `ThreadPool._build_pool`: replaces `self._pool` with
`pool_size` freshly started worker threads. -/
def ThreadPool.build_pool (p : ThreadPool) : ThreadPool :=
  { p with pool := List.replicate p.pool_size ThreadKind.worker }

/-- Model of `ThreadPool.run`: calls `start`, builds the worker pool, and,
only when `self._source is not None`, appends and starts one consumer
thread. -/
def ThreadPool.run (p : ThreadPool) (now : Nat) : ThreadPool :=
  let p1 := (p.start now).build_pool
  match p1.source with
  | some _ => { p1 with pool := p1.pool ++ [ThreadKind.consumer] }
  | none => p1

/-- Model of `ThreadPool.finish`: assigns `self._end_time = datetime.now()`
and then evaluates `self._end_time - self._start_time` for the debug log; if
`_start_time` was never assigned, reading it raises `AttributeError` — after
`_end_time` has already been assigned. The updated pool state is returned
together with the raised exception, if any. -/
def ThreadPool.finish (p : ThreadPool) (now : Nat) : ThreadPool × Option PyError :=
  let p1 := { p with end_time := some now }
  match p1.start_time with
  | some _ => (p1, none)
  | none => (p1, some PyError.attributeError)

/-- Model of `ThreadPool.wait`: `self._queue.join()` blocks until the
queue's `unfinished_tasks` counter is zero (`none` models a join that never
returns), then `finish` runs. -/
def ThreadPool.wait (s : Sys) (p : ThreadPool) (now : Nat) :
    Option (ThreadPool × Option PyError) :=
  if (s.queues p.queue).unfinished = 0 then some (p.finish now) else none

/-- Model of `ThreadPool.forward(other)` (`self = a`, `other = b`): creates
the fresh `Queue(self._queue_capacity)`, stores its id in `self._queue_out`,
and calls `other.set_source` with that queue — which, per the
`isinstance(source, Queue)` branch, replaces `other._queue`. Returns the
updated heap, the updated `self` (which is also the Python return value of
`forward` and of `__rshift__`), and the updated `other`. -/
def ThreadPool.forward (s : Sys) (a b : ThreadPool) : Sys × ThreadPool × ThreadPool :=
  let r := s.alloc a.queue_capacity
  (r.1, { a with queue_out := some r.2 }, b.set_source (SourceArg.queueArg r.2))

/-- Model of `ThreadPool.__rshift__` (`a >> b`): simply `a.forward(b)`; the
value of the Python expression `a >> b` is the `.2.1` component (the updated
left pool), because `forward` returns `self`. -/
def ThreadPool.rshift (s : Sys) (a b : ThreadPool) : Sys × ThreadPool × ThreadPool :=
  ThreadPool.forward s a b

/-- Model of Python's `len` on the values it is applied to inside
`jobs_count`: defined for sequences and mappings, raises `TypeError` on an
integer (or any other non-sized value). -/
def pyLen (v : PyObj) : Except PyError Nat :=
  match v with
  | .tup xs => .ok xs.length
  | .dict kvs => .ok kvs.length
  | .callable _ => .error .typeError
  | .intVal _ => .error .typeError

/-- Model of `ThreadPool.jobs_count`: computes
`len(self._pool) + len(self._queue.qsize())`. `len(self._pool)` is the
length of the thread list (a Python list, so `len` always succeeds);
`self._queue.qsize()` is an integer, and applying `len` to it is modelled by
`pyLen` on an `intVal`. -/
def ThreadPool.jobs_count (s : Sys) (p : ThreadPool) : Except PyError Nat :=
  match pyLen (PyObj.intVal ((s.queues p.queue).items.length : Int)) with
  | .ok d => .ok (p.pool.length + d)
  | .error e => .error e

/-- A fixed concrete job used in concrete evaluations. -/
def jobX : Job := (PyObj.callable 0, [], [])

/-- C4: for every pool the constructor allocates its in-queue as a fresh
bounded queue of exactly `queue_capacity`; under every sequence of atomic
`put`/`get`/`task_done` operations (in particular every sequence of
`put`/`add` calls, in any interleaving) the number of items resident in that
queue never exceeds `queue_capacity`; and a `put` against a full bounded
queue fails with `Queue.Full` while leaving the queue unchanged — no
transient overshoot. -/
theorem pool_queue_never_exceeds_capacity (cap : Nat) (hcap : 0 < cap) :
    (∀ (s : Sys) (n : Nat) (src : SourceArg) (tmo : Nat),
        (mkThreadPool s n src cap tmo).1.queues s.nextQ = mkBQueue Job cap)
    ∧ (∀ ops : List (QOp Job), (runOps (mkBQueue Job cap) ops).items.length ≤ cap)
    ∧ (∀ (q : BQueue Job) (x : Job), 0 < q.maxsize → q.maxsize ≤ q.items.length →
        q.put x = .error .full ∧ (q.applyOp (QOp.putOp x)).items = q.items) := by
  refine ⟨?_, ?_, ?_⟩
  · intro s n src tmo
    simp [mkThreadPool, Sys.alloc]
  · intro ops
    exact runOps_length_le ops (mkBQueue Job cap) hcap (by simp [mkBQueue])
  · intro q x hpos hfull
    have hf : q.isFull = true := by
      simp [BQueue.isFull]
      exact ⟨hpos, hfull⟩
    constructor
    · simp [BQueue.put, hf]
    · simp [BQueue.applyOp, BQueue.put, hf]

/-- Witness for C4 at capacity 1: two consecutive puts on the pool's fresh
queue leave at most one resident item. -/
theorem pool_queue_never_exceeds_capacity_witness :
    (runOps (mkBQueue Job 1) [QOp.putOp jobX, QOp.putOp jobX]).items.length ≤ 1 :=
  (pool_queue_never_exceeds_capacity 1 (by decide)).2.1 [QOp.putOp jobX, QOp.putOp jobX]

/-- Outcome of invoking `job[0](*job[1], **job[2])`: the callable returns a
value, or raises an exception (callables are opaque external collaborators,
so the outcome is chosen by the environment). -/
inductive JobOutcome where
  | retOk (v : PyObj)
  | raised

/-- Outcome of `self._queue_out.put(result, timeout=...)`: accepted, or
still full when the timeout elapses (`Queue.Full`). -/
inductive PutOutcome where
  | accepted
  | fullTimeout

/-- Environment responses for one iteration of the worker loop
`_thread_run`: what `self._queue.get(timeout=...)` yields (`none` models a
`Queue.Empty` timeout), how the job callable behaves, and how the downstream
`put` behaves (the latter two are consulted only when reached). -/
structure IterEnv where
  deq : Option Job
  exec : JobOutcome
  outPut : PutOutcome

/-- How one iteration of `_thread_run` ends: loop again, leave the loop via
the `except Empty: break` handler, or let an exception propagate out of the
`while` (which kills the worker thread, since only `Empty` is caught). -/
inductive IterExit where
  | contin
  | breakLoop
  | propagate (e : PyError)
deriving DecidableEq, Repr

/-- Observable trace of one iteration of `_thread_run`: how many jobs were
dequeued, how many `task_done` calls were made, which results were pushed to
`self._queue_out`, and how the iteration ended. -/
structure IterTrace where
  dequeued : Nat
  taskDone : Nat
  pushed : List PyObj
  exit : IterExit

/-- Model of one iteration of `ThreadPool._thread_run` (`hasOut` is the
truthiness of `self._queue_out`): `get` raising `Empty` is caught and breaks
the loop; on a dequeued job the callable runs, a returned result is put on
`_queue_out` when one is configured, and the `finally` block calls
`task_done` exactly once before any exception (from the callable or from a
full downstream `put`) propagates. -/
def threadRunIter (hasOut : Bool) (env : IterEnv) : IterTrace :=
  match env.deq with
  | none => { dequeued := 0, taskDone := 0, pushed := [], exit := IterExit.breakLoop }
  | some _ =>
    match env.exec with
    | .raised =>
      { dequeued := 1, taskDone := 1, pushed := [],
        exit := IterExit.propagate PyError.jobError }
    | .retOk v =>
      if hasOut then
        match env.outPut with
        | .accepted =>
          { dequeued := 1, taskDone := 1, pushed := [v], exit := IterExit.contin }
        | .fullTimeout =>
          { dequeued := 1, taskDone := 1, pushed := [],
            exit := IterExit.propagate PyError.full }
      else
        { dequeued := 1, taskDone := 1, pushed := [], exit := IterExit.contin }

/-- Aggregate trace of a whole run of `_thread_run`. `exit = none` means the
environment script ran out while the loop was still going; `some none` means
the worker returned normally (its `while` was left through the `break`);
`some (some e)` means the thread died with the unhandled exception `e`. -/
structure RunTrace where
  dequeued : Nat
  taskDone : Nat
  pushed : List PyObj
  exit : Option (Option PyError)

/-- Model of the `while True` loop of `ThreadPool._thread_run`, driven by a
list of per-iteration environment responses. -/
def threadRun (hasOut : Bool) : List IterEnv → RunTrace
  | [] => { dequeued := 0, taskDone := 0, pushed := [], exit := none }
  | env :: rest =>
    let it := threadRunIter hasOut env
    match it.exit with
    | .contin =>
      let t := threadRun hasOut rest
      { dequeued := it.dequeued + t.dequeued, taskDone := it.taskDone + t.taskDone,
        pushed := it.pushed ++ t.pushed, exit := t.exit }
    | .breakLoop =>
      { dequeued := it.dequeued, taskDone := it.taskDone, pushed := it.pushed,
        exit := some none }
    | .propagate e =>
      { dequeued := it.dequeued, taskDone := it.taskDone, pushed := it.pushed,
        exit := some (some e) }

theorem threadRunIter_taskDone_eq_dequeued (hasOut : Bool) (env : IterEnv) :
    (threadRunIter hasOut env).taskDone = (threadRunIter hasOut env).dequeued := by
  obtain ⟨deq, exec, outPut⟩ := env
  cases deq with
  | none => rfl
  | some j =>
    cases exec with
    | raised => rfl
    | retOk v =>
      cases hasOut with
      | false => rfl
      | true =>
        cases outPut with
        | accepted => rfl
        | fullTimeout => rfl

/-- C5: `task_done` accounting of the worker loop. First conjunct: in any
iteration that successfully dequeues a job, `task_done` is called exactly
once — whether the callable returns, the callable raises, or pushing the
result to a configured downstream queue fails with `Queue.Full` (the
`finally` block runs in every case). Second conjunct: over any whole run of
the loop, the number of `task_done` calls equals the number of successfully
dequeued jobs. -/
theorem worker_task_done_exactly_once :
    (∀ (hasOut : Bool) (j : Job) (exec : JobOutcome) (outPut : PutOutcome),
        (threadRunIter hasOut
          { deq := some j, exec := exec, outPut := outPut }).taskDone = 1)
    ∧ ∀ (hasOut : Bool) (envs : List IterEnv),
        (threadRun hasOut envs).taskDone = (threadRun hasOut envs).dequeued := by
  constructor
  · intro hasOut j exec outPut
    cases exec with
    | raised => rfl
    | retOk v =>
      cases hasOut with
      | false => rfl
      | true =>
        cases outPut with
        | accepted => rfl
        | fullTimeout => rfl
  · intro hasOut envs
    induction envs with
    | nil => rfl
    | cons env rest ih =>
      have hiter := threadRunIter_taskDone_eq_dequeued hasOut env
      unfold threadRun
      cases hexit : (threadRunIter hasOut env).exit with
      | contin => simp [hexit, hiter, ih]
      | breakLoop => simp [hexit, hiter]
      | propagate e => simp [hexit, hiter]

/-- C8: a worker whose `get` times out on an empty queue (`Queue.Empty`)
leaves its loop permanently and normally: the whole remaining environment
script is ignored (the loop body never runs again — nothing restarts a
worker), no `task_done` is charged, and the exit is `some none` — the
`Empty` exception is consumed by the `except Empty: break` handler and never
surfaces out of `_thread_run`. -/
theorem worker_empty_timeout_exits_loop :
    ∀ (hasOut : Bool) (exec : JobOutcome) (outPut : PutOutcome) (rest : List IterEnv),
      threadRun hasOut ({ deq := none, exec := exec, outPut := outPut } :: rest)
        = { dequeued := 0, taskDone := 0, pushed := [], exit := some none } := by
  intro hasOut exec outPut rest
  rfl

/-- The shape check performed when `_consume` calls
`self.add(job[0], *job[1], **job[2])`: unpacking `*job[1]` requires a
sequence and `**job[2]` requires a mapping. When both unpack, the resulting
enqueued job is the `(callback, args, kwargs)` triple; otherwise the call
raises `TypeError`. Only applied after the `len(job) == 3` check. -/
def unpackJob (item : List PyObj) : Option Job :=
  match item with
  | [f, PyObj.tup args, PyObj.dict kws] => some (f, args, kws)
  | _ => none

/-- Total version of `unpackJob` for stating which jobs a well-formed source
produces. -/
def toJob (item : List PyObj) : Job :=
  (unpackJob item).getD (PyObj.intVal 0, [], [])

/-- Definition following the words of the specification (not the code): a
source item is a valid Job when it is a callable / positional-args /
keyword-args triple. Used to compare the code's validation against the
spec's. -/
def specValidJobTriple (item : List PyObj) : Bool :=
  match item with
  | [f, PyObj.tup _, PyObj.dict _] => f.isCallable
  | _ => false

/-- Model of the retry loop of `_consume` (`while True: try add / break /
except Full: sleep(0.1)`) for one job, driven by the environment's response
to each `put` attempt (`true` = the in-queue accepted the job before the
`put` timeout). Returns the list of attempted puts — each submits the same
job — and `some k` when attempt `k` was accepted (`none` when every scripted
attempt found the queue full, i.e. the loop is still retrying). -/
def retryAdd (j : Job) : List Bool → List Job × Option Nat
  | [] => ([], none)
  | b :: bs =>
    if b then ([j], some 0)
    else
      let r := retryAdd j bs
      (j :: r.1, Option.map (fun k => k + 1) r.2)

/-- How a run of `ThreadPool._consume` ends: the `for` loop exhausted the
source; a `len(job) != 3` item raised `ValueError`; an unpackable
`add(job[0], *job[1], **job[2])` call raised `TypeError`; or the retry loop
is still waiting on a full queue. The two error outcomes kill the consumer
thread — the offending item is neither retried nor skipped. -/
inductive ConsumeOutcome where
  | completed
  | valueErrorAbort
  | typeErrorAbort
  | blocked
deriving DecidableEq, Repr

/-- Model of `ThreadPool._consume`: iterates the source items; for each item
first checks `len(job) == 3` (raising `ValueError` otherwise), then retries
`self.add(job[0], *job[1], **job[2])` until the in-queue accepts
(`envs` supplies one accept/full script per item). Returns the jobs actually
enqueued, in order, and how the run ended. -/
def consume : List (List PyObj) → List (List Bool) → List Job × ConsumeOutcome
  | [], _ => ([], ConsumeOutcome.completed)
  | item :: rest, envs =>
    if item.length = 3 then
      match unpackJob item with
      | none => ([], ConsumeOutcome.typeErrorAbort)
      | some j =>
        match (retryAdd j (envs.headD [])).2 with
        | none => ([], ConsumeOutcome.blocked)
        | some _ =>
          let r := consume rest envs.tail
          (j :: r.1, r.2)
    else ([], ConsumeOutcome.valueErrorAbort)

/-- An item that is NOT a valid callable/args/kwargs triple (its first
element is the integer 42, not a callable) but has length 3. -/
def nonCallableItem : List PyObj := [PyObj.intVal 42, PyObj.tup [], PyObj.dict []]

/-- C6 counterexample: `_consume` validates only `len(job) == 3`, not that
the item is a valid callable/args/kwargs triple. The length-3 item
`(42, (), {})` is not a valid Job triple, yet the consumer enqueues it
without any validation error and completes — refuting the claim that every
invalid triple fails fast before being enqueued. -/
theorem consumer_enqueues_invalid_triple :
    consume [nonCallableItem] [[true]]
        = ([(PyObj.intVal 42, [], [])], ConsumeOutcome.completed)
      ∧ specValidJobTriple nonCallableItem = false := by
  constructor
  · rfl
  · rfl

/-- C6 amended: the consumer's fail-fast validation checks only the length
of the item. First conjunct: any item whose length differs from 3 makes the
consumer raise `ValueError` before enqueueing anything — fatal for the
consumer thread: the item is not retried, and neither it nor any later item
is processed. Second conjunct: any length-3 item of shape
`(anything, tuple, dict)` is enqueued as soon as the queue accepts it, with
no check that its first element is callable. -/
theorem consumer_length_check_only :
    (∀ (item : List PyObj) (rest : List (List PyObj)) (envs : List (List Bool)),
        item.length ≠ 3 →
        consume (item :: rest) envs = ([], ConsumeOutcome.valueErrorAbort))
    ∧ ∀ (f : PyObj) (args : List PyObj) (kws : List (String × PyObj))
        (rest : List (List PyObj)) (tl : List Bool) (envs : List (List Bool)),
        consume ([f, PyObj.tup args, PyObj.dict kws] :: rest) ((true :: tl) :: envs)
          = ((f, args, kws) :: (consume rest envs).1, (consume rest envs).2) := by
  constructor
  · intro item rest envs hlen
    simp [consume, hlen]
  · intro f args kws rest tl envs
    simp [consume, unpackJob, retryAdd]

/-- Witness for C6 amended: the empty item (length 0) aborts the consumer
with `ValueError` and nothing is enqueued. -/
theorem consumer_length_check_only_witness :
    consume [[]] [] = ([], ConsumeOutcome.valueErrorAbort) :=
  consumer_length_check_only.1 [] [] [] (by decide)

theorem unpackJob_length (item : List PyObj) (j : Job)
    (h : unpackJob item = some j) : item.length = 3 := by
  unfold unpackJob at h
  split at h
  · rfl
  · exact Option.noConfusion h

theorem retryAdd_accepts (j : Job) (accepts : List Bool) (h : true ∈ accepts) :
    (retryAdd j accepts).2.isSome = true := by
  induction accepts with
  | nil => simp at h
  | cons b bs ih =>
    cases b with
    | false =>
      simp only [List.mem_cons] at h
      rcases h with h1 | h2
      · exact Bool.noConfusion h1
      · simp [retryAdd, ih h2]
    | true => simp [retryAdd]

theorem retryAdd_same_job (j : Job) (accepts : List Bool) :
    ∀ x ∈ (retryAdd j accepts).1, x = j := by
  induction accepts with
  | nil => simp [retryAdd]
  | cons b bs ih =>
    cases b with
    | false =>
      intro x hx
      simp only [retryAdd, if_neg Bool.false_ne_true, List.mem_cons] at hx
      rcases hx with h1 | h2
      · exact h1
      · exact ih x h2
    | true =>
      intro x hx
      simp [retryAdd] at hx
      exact hx

/-- C7: the Source Consumer never drops a source item under backpressure.
First conjunct: every attempt made by the retry loop re-submits exactly the
same job — a `Queue.Full` response never makes it move on or alter the item.
Second conjunct: for any sequence-shaped source of well-formed items, if
each item's enqueue is eventually accepted (each per-item script contains an
accept), the consumer enqueues precisely the source's jobs, in order, each
exactly once, and completes — no item is lost and none is duplicated. -/
theorem consumer_never_drops_source_items :
    (∀ (j : Job) (accepts : List Bool), ∀ x ∈ (retryAdd j accepts).1, x = j)
    ∧ ∀ (src : List (List PyObj)) (envs : List (List Bool)),
        (∀ item ∈ src, (unpackJob item).isSome = true) →
        envs.length = src.length →
        (∀ e ∈ envs, true ∈ e) →
        consume src envs = (src.map toJob, ConsumeOutcome.completed) := by
  constructor
  · exact retryAdd_same_job
  · intro src
    induction src with
    | nil =>
      intro envs hwf hlen hacc
      cases envs with
      | nil => rfl
      | cons e etl => simp at hlen
    | cons item rest ih =>
      intro envs hwf hlen hacc
      cases envs with
      | nil => simp at hlen
      | cons e etl =>
        have hitem : (unpackJob item).isSome = true := hwf item (by simp)
        obtain ⟨j, hj⟩ := Option.isSome_iff_exists.mp hitem
        have hlen3 : item.length = 3 := unpackJob_length item j hj
        have hacce : true ∈ e := hacc e (by simp)
        have hsome := retryAdd_accepts j e hacce
        obtain ⟨k, hk⟩ := Option.isSome_iff_exists.mp hsome
        have ihr := ih etl (fun it hit => hwf it (by simp [hit]))
          (by simpa using hlen) (fun x hx => hacc x (by simp [hx]))
        simp only [consume, hlen3, if_pos, hj, List.headD_cons, hk, List.tail_cons,
          ihr, List.map_cons]
        simp [toJob, hj]

/-- Two well-formed source items used to witness C7. -/
def c7src : List (List PyObj) :=
  [[PyObj.callable 1, PyObj.tup [], PyObj.dict []],
   [PyObj.callable 2, PyObj.tup [PyObj.intVal 5], PyObj.dict []]]

/-- Accept scripts for the C7 witness: the first item is refused once
(`Queue.Full`) and accepted on the retry, the second is accepted at once. -/
def c7envs : List (List Bool) := [[false, true], [true]]

/-- Witness for C7: a two-item source whose first item meets backpressure is
still enqueued completely and in order. -/
theorem consumer_never_drops_source_items_witness :
    consume c7src c7envs = (c7src.map toJob, ConsumeOutcome.completed) :=
  consumer_never_drops_source_items.2 c7src c7envs
    (by decide) (by decide) (by decide)

theorem countConsumers_workers (n : Nat) :
    countConsumers (List.replicate n ThreadKind.worker) = 0 := by
  induction n with
  | zero => rfl
  | succ k ih => simp [countConsumers, List.replicate_succ, List.filter_cons]

/-- C2: `jobs_count` never returns a number. It computes
`len(self._pool) + len(self._queue.qsize())`, and `qsize()` is an integer,
so the second `len` raises `TypeError` on every pool, whatever the state of
its thread list and queue — contradicting the function's own docstring
(`Returns total count of jobs waiting and being processed`). -/
theorem jobs_count_always_raises_type_error :
    ∀ (s : Sys) (p : ThreadPool),
      ThreadPool.jobs_count s p = Except.error PyError.typeError := by
  intro s p
  rfl

/-- C9: behavior of `add(callback, *args, **kwargs)`. If the in-queue
accepts within `queue_timeout` (it is not full), the job is enqueued as the
`(callback, args, kwargs)` triple, appended to the pool's in-queue with the
in-flight counter incremented; if the queue is still full when the timeout
elapses, `add` fails with `Queue.Full`, which propagates directly to `add`'s
caller (there is no handler in `add`). -/
theorem add_enqueues_triple_or_raises_full :
    ∀ (s : Sys) (p : ThreadPool) (callback : PyObj) (args : List PyObj)
      (kwargs : List (String × PyObj)),
      ((s.queues p.queue).isFull = false →
        ThreadPool.add s p callback args kwargs
          = Except.ok (s.setQueue p.queue
              { s.queues p.queue with
                items := (s.queues p.queue).items ++ [(callback, args, kwargs)],
                unfinished := (s.queues p.queue).unfinished + 1 }))
      ∧ ((s.queues p.queue).isFull = true →
        ThreadPool.add s p callback args kwargs = Except.error PyError.full) := by
  intro s p callback args kwargs
  constructor
  · intro hfull
    simp [ThreadPool.add, BQueue.put, hfull]
  · intro hfull
    simp [ThreadPool.add, BQueue.put, hfull]

/-- A pool whose in-queue (id 0 in `c9sys`) has capacity 1 and already holds
one job, for the C9 witness. -/
def c9pool : ThreadPool :=
  { pool_size := 30, pool := [], queue := 0, queue_capacity := 1,
    queue_timeout := 500, source := none, queue_out := none,
    start_time := none, end_time := none }

/-- Heap for the C9 witness: the single queue is full. -/
def c9sys : Sys :=
  { queues := fun _ => { maxsize := 1, items := [jobX], unfinished := 1 }, nextQ := 1 }

/-- Witness for C9: `add` against a full queue fails with `Queue.Full`. -/
theorem add_enqueues_triple_or_raises_full_witness :
    ThreadPool.add c9sys c9pool (PyObj.callable 3) [] [] = Except.error PyError.full :=
  (add_enqueues_triple_or_raises_full c9sys c9pool (PyObj.callable 3) [] []).2 rfl

/-- Pool A of the C1 counterexample, freshly constructed with the default
configuration. -/
def c1a : Sys × ThreadPool := mkThreadPool mkSys 30 SourceArg.noneArg 100 500

/-- Pool B of the C1 counterexample. -/
def c1b : Sys × ThreadPool := mkThreadPool c1a.1 30 SourceArg.noneArg 100 500

/-- The system after `c1a.forward(c1b)`. -/
def c1fwd : Sys × ThreadPool × ThreadPool := ThreadPool.forward c1b.1 c1a.2 c1b.2

/-- C1 counterexample: after forwarding pool A to pool B, the shared queue
is installed directly as pool B's input queue (`B._queue` IS the queue
`A._queue_out` points to), pool B's `_source` remains `None`, and therefore
`B.run()` starts no Source Consumer thread at all — refuting the claim that
the shared queue becomes B's input Source whose consumer feeds B's own input
queue rather than B using the shared queue directly as its input queue. -/
theorem forward_installs_input_queue_not_source :
    c1fwd.2.1.queue_out = some c1fwd.2.2.queue
    ∧ c1fwd.2.2.source = none
    ∧ countConsumers ((c1fwd.2.2.run 0).pool) = 0 := by
  refine ⟨rfl, rfl, ?_⟩
  rfl

/-- C1 amended: `forward(A, B)` creates a fresh bounded queue of A's
configured capacity, installs it as A's output queue and — through the
`isinstance(source, Queue)` branch of `set_source` — directly as B's input
queue, replacing B's previous one; B's `_source` is unchanged, so (when B
had no sequence source) `B.run()` spawns workers but no consumer thread,
and B's workers dequeue the forwarded results directly. Every value
returned by a job executed in A whose downstream `put` is accepted is
pushed onto that shared queue. -/
theorem forward_wires_output_to_input_queue :
    ∀ (s : Sys) (a b : ThreadPool) (now : Nat),
      ((ThreadPool.forward s a b).2.1.queue_out = some s.nextQ)
      ∧ ((ThreadPool.forward s a b).2.2.queue = s.nextQ)
      ∧ ((ThreadPool.forward s a b).1.queues s.nextQ = mkBQueue Job a.queue_capacity)
      ∧ ((ThreadPool.forward s a b).2.2.source = b.source)
      ∧ (b.source = none →
          countConsumers (((ThreadPool.forward s a b).2.2.run now).pool) = 0)
      ∧ ∀ (j : Job) (v : PyObj),
          threadRunIter true
              { deq := some j, exec := JobOutcome.retOk v, outPut := PutOutcome.accepted }
            = { dequeued := 1, taskDone := 1, pushed := [v], exit := IterExit.contin } := by
  intro s a b now
  refine ⟨rfl, rfl, ?_, rfl, ?_, ?_⟩
  · simp [ThreadPool.forward, Sys.alloc]
  · intro hsrc
    simp [ThreadPool.forward, ThreadPool.set_source, ThreadPool.run, ThreadPool.start,
      ThreadPool.build_pool, hsrc, countConsumers_workers]
  · intro j v
    rfl

/-- Witness for C1 amended: after the concrete forward of `c1fwd`, running
pool B spawns no consumer thread. -/
theorem forward_wires_output_to_input_queue_witness :
    countConsumers (((ThreadPool.forward c1b.1 c1a.2 c1b.2).2.2.run 5).pool) = 0 :=
  (forward_wires_output_to_input_queue c1b.1 c1a.2 c1b.2 5).2.2.2.2.1 rfl

/-- Pool a of the C3 counterexample. -/
def c3a : Sys × ThreadPool := mkThreadPool mkSys 30 SourceArg.noneArg 100 500

/-- Pool b of the C3 counterexample. -/
def c3b : Sys × ThreadPool := mkThreadPool c3a.1 30 SourceArg.noneArg 100 500

/-- Pool c of the C3 counterexample. -/
def c3c : Sys × ThreadPool := mkThreadPool c3b.1 30 SourceArg.noneArg 100 500

/-- The state after evaluating `a >> b`: `.2.1` is the value of the
expression (the updated a, since `forward` returns `self`), `.2.2` the
updated b. -/
def c3ab : Sys × ThreadPool × ThreadPool := ThreadPool.rshift c3c.1 c3a.2 c3b.2

/-- The state after evaluating `(a >> b) >> c`, i.e. the full expression
`a >> b >> c`: because `a >> b` returned a, this second step is `a >> c`. -/
def c3abc : Sys × ThreadPool × ThreadPool := ThreadPool.rshift c3ab.1 c3ab.2.1 c3c.2

/-- C3 counterexample: evaluating `a >> b >> c` on three fresh pools does
NOT leave a's output wired into b's input and b's output wired into c's
input. The first step gives b input queue 3; the second step overwrites a's
`_queue_out` with the fresh queue 4 and hands queue 4 to c, so a's output
now feeds c and no longer feeds b (`some 4 ≠ some 3`), and b's own output
queue was never set — refuting the claim that each step wires the
immediately preceding pool's output into the next pool's input without
overwriting an earlier stage's wiring. -/
theorem rshift_chain_overwrites_wiring :
    c3ab.2.2.queue = 3
    ∧ c3abc.2.2.queue = 4
    ∧ c3abc.2.1.queue_out = some c3abc.2.2.queue
    ∧ (c3abc.2.1.queue_out == some c3ab.2.2.queue) = false
    ∧ c3ab.2.2.queue_out = none := by
  refine ⟨rfl, rfl, rfl, rfl, rfl⟩

/-- C3 amended: each single `forward` call wires the left pool's output into
the right pool's input, so a pipeline of arbitrary length is built by
forwarding consecutive pairs — `a.forward(b)` then `b.forward(c)` (as
separate statements) leaves a's output queue equal to b's input queue and
b's output queue equal to c's input queue, the two being distinct fresh
queues, with neither step overwriting the other. The chained expression
`a >> b >> c` does not do this, because `__rshift__` returns the updated
LEFT pool (first conjunct), so its second step forwards a again. -/
theorem pairwise_forward_builds_chain :
    ∀ (s : Sys) (a b c : ThreadPool),
      (ThreadPool.rshift s a b).2.1 = { a with queue_out := some s.nextQ }
      ∧ ((ThreadPool.forward s a b).2.1.queue_out
          = some (ThreadPool.forward (ThreadPool.forward s a b).1
              (ThreadPool.forward s a b).2.2 c).2.1.queue)
      ∧ ((ThreadPool.forward (ThreadPool.forward s a b).1
            (ThreadPool.forward s a b).2.2 c).2.1.queue_out
          = some (ThreadPool.forward (ThreadPool.forward s a b).1
              (ThreadPool.forward s a b).2.2 c).2.2.queue)
      ∧ (ThreadPool.forward (ThreadPool.forward s a b).1
            (ThreadPool.forward s a b).2.2 c).2.1.queue
          ≠ (ThreadPool.forward (ThreadPool.forward s a b).1
              (ThreadPool.forward s a b).2.2 c).2.2.queue := by
  intro s a b c
  refine ⟨rfl, rfl, rfl, ?_⟩
  simp [ThreadPool.forward, ThreadPool.set_source, Sys.alloc]

/-- Witness for the pairwise-forward chain theorem at the three concrete
pools of the C3 scenario: the two wiring queues of the chain are distinct. -/
theorem pairwise_forward_builds_chain_witness :
    (ThreadPool.forward (ThreadPool.forward c3c.1 c3a.2 c3b.2).1
        (ThreadPool.forward c3c.1 c3a.2 c3b.2).2.2 c3c.2).2.1.queue
      ≠ (ThreadPool.forward (ThreadPool.forward c3c.1 c3a.2 c3b.2).1
          (ThreadPool.forward c3c.1 c3a.2 c3b.2).2.2 c3c.2).2.2.queue :=
  (pairwise_forward_builds_chain c3c.1 c3a.2 c3b.2 c3c.2).2.2.2

/-- The fresh default pool of the C10 scenario: constructed, never run. -/
def c10mk : Sys × ThreadPool := mkThreadPool mkSys 30 SourceArg.noneArg 100 500

/-- C10 counterexample: calling `wait()` at time 7 on a pool that was never
started does fail with `AttributeError`, but only AFTER
`self._end_time = datetime.now()` has executed: the returned pool state
carries `end_time = some 7`. This refutes the claim's final clause that the
failure happens instead of recording an end timestamp — the end timestamp IS
recorded; what never happens is a normal return. -/
theorem wait_unstarted_records_end_time :
    ThreadPool.wait c10mk.1 c10mk.2 7
      = some ({ c10mk.2 with end_time := some 7 }, some PyError.attributeError)
    ∧ ({ c10mk.2 with end_time := some 7 } : ThreadPool).end_time.isSome = true := by
  refine ⟨rfl, rfl⟩

/-- C10 amended: `wait()` on a pool whose `run()` (hence `start()`) was
never invoked never returns normally. Fresh pools have no `_start_time`
(first conjunct) and only `run`/`start` assigns it (second conjunct); on
such a pool, once the queue join returns, `finish` assigns `_end_time` and
then raises `AttributeError` reading the missing `_start_time` (third
conjunct) — so `wait` records the end timestamp and then fails instead of
returning. -/
theorem wait_unstarted_raises_attribute_error :
    (∀ (s : Sys) (n : Nat) (src : SourceArg) (cap tmo : Nat),
        (mkThreadPool s n src cap tmo).2.start_time = none)
    ∧ (∀ (p : ThreadPool) (now : Nat), (p.run now).start_time = some now)
    ∧ ∀ (s : Sys) (p : ThreadPool) (now : Nat),
        p.start_time = none →
        (s.queues p.queue).unfinished = 0 →
        ThreadPool.wait s p now
          = some ({ p with end_time := some now }, some PyError.attributeError) := by
  refine ⟨?_, ?_, ?_⟩
  · intro s n src cap tmo
    cases src with
    | queueArg qid => rfl
    | seqArg items => rfl
    | noneArg => rfl
  · intro p now
    cases hs : p.source with
    | some items =>
      simp [ThreadPool.run, ThreadPool.start, ThreadPool.build_pool, hs]
    | none =>
      simp [ThreadPool.run, ThreadPool.start, ThreadPool.build_pool, hs]
  · intro s p now hstart hjoin
    simp [ThreadPool.wait, hjoin, ThreadPool.finish, hstart]

/-- Witness for C10 amended: the concrete never-started pool `c10mk`,
waited on at time 3. -/
theorem wait_unstarted_raises_attribute_error_witness :
    ThreadPool.wait c10mk.1 c10mk.2 3
      = some ({ c10mk.2 with end_time := some 3 }, some PyError.attributeError) :=
  wait_unstarted_raises_attribute_error.2.2 c10mk.1 c10mk.2 3 rfl rfl
